import Mathlib

/-!
Shallow embedding of the martinez repository core under verification:
the preverified header downloader (src/downloader/headers/downloader_preverified.rs),
the MDBX cursor layer (src/kv/mdbx.rs), the bucket configuration table
(src/dbutils/bucket.rs), and the eth RPC adapter (src/bin/martinez-rpc.rs).

Pure control flow and data handling are translated from the Rust sources.
External collaborators (the database engine, the state accessors, EVM
execution) are abstracted as explicit oracle inputs, so every theorem
quantifies over the collaborator behaviour.  Code that can panic (todo!,
unwrap on None, out-of-bounds indexing) is modelled with an explicit
panic outcome.
-/

set_option maxRecDepth 10000

namespace Martinez

/-- Raw byte strings are modelled as lists of byte values. -/
abbrev Bytes := List Nat

/-- 32-byte hashes (H256) are modelled abstractly; only identity matters here. -/
abbrev Hash := Nat

/-- 20-byte account addresses, modelled abstractly. -/
abbrev Address := Nat

/-- Outcome of Rust code that can panic (todo!, unwrap, out-of-bounds indexing). -/
inductive RustOutcome (α : Type) where
  | ok (a : α)
  | panicked (msg : String)
deriving DecidableEq

/-- Sequencing of panicking computations. -/
def RustOutcome.bind {α β : Type} : RustOutcome α → (α → RustOutcome β) → RustOutcome β
  | .ok a, f => f a
  | .panicked m, _ => .panicked m

namespace HeaderDownload

/-- Modelled from the spec: header_slices.rs is not under src/;
spec section 3 fixes SLICE_SIZE = 192 headers per slice
(HEADER_SLICE_SIZE in the source). -/
def HEADER_SLICE_SIZE : Nat := 192

/-- sentry::messages::BlockHashAndNumber, as used for the downloader report. -/
structure BlockHashAndNumber where
  number : Nat
  hash : Hash
deriving DecidableEq

/-- From DownloaderPreverified::run:
final_block_num = (preverified_hashes_config.hashes.len() - 1) * HEADER_SLICE_SIZE,
final_block_hash = *hashes.last().unwrap().
On an empty config the usize subtraction and the unwrap both panic. -/
def final_block_id (hashes : List Hash) : RustOutcome BlockHashAndNumber :=
  match hashes.getLast? with
  | none => .panicked "called Option unwrap on a None value"
  | some last => .ok { number := (hashes.length - 1) * HEADER_SLICE_SIZE, hash := last }

/-- From DownloaderPreverified::run: the FetchRequestStage is constructed with
header limit HEADER_SLICE_SIZE + 1 (the GetBlockHeaders count per slice). -/
def fetch_request_max_headers : Nat := HEADER_SLICE_SIZE + 1

/-- Modelled from the spec: HeaderSlices and SaveStage are not under src/.
Spec sections 3 and 4.2: slices of SLICE_SIZE headers tile
the range below final_block_num, each aligned to a slice boundary. -/
def slice_starts (final_block_num : Nat) : List Nat :=
  (List.range (final_block_num / HEADER_SLICE_SIZE)).map (fun i => i * HEADER_SLICE_SIZE)

/-- Modelled from the spec: SaveStage (spec section 4.7) persists each of the
192 headers of every verified slice; these are the block numbers persisted
over a full successful run. -/
def saved_blocks (final_block_num : Nat) : List Nat :=
  (slice_starts final_block_num).flatMap (fun s => (List.range HEADER_SLICE_SIZE).map (fun i => s + i))

/-- Modelled from the spec: the final block_number progress after a successful
run is the highest persisted block number. -/
def final_progress (final_block_num : Nat) : Nat :=
  (saved_blocks final_block_num).foldl max 0

/-- One observation of the run loop body in DownloaderPreverified::run:
the stage key and tick result from the StreamMap, and the values of the
can_proceed() and is_empty_at_final_position() checks at that instant. -/
structure Tick where
  key : String
  is_err : Bool
  can_proceed : Bool
  empty_at_final : Bool

/-- How the run loop of DownloaderPreverified::run ends. -/
inductive LoopExit where
  | stageError (key : String)
  | cannotProceed
  | emptyAtFinal
  | streamEnded
deriving DecidableEq

/-- The break decision of one run-loop iteration, in source order:
a failed tick breaks (logging the stage key), then the can_proceed() check,
then the is_empty_at_final_position() check; otherwise the iteration
continues. -/
def loop_exit_of (t : Tick) : Option LoopExit :=
  if t.is_err then some (.stageError t.key)
  else if !t.can_proceed then some .cannotProceed
  else if t.empty_at_final then some .emptyAtFinal
  else none

/-- The run loop of DownloaderPreverified::run over a finite trace of stage
ticks: returns the exit reason together with the number of
notify_status_watchers() calls made. -/
def run_loop : List Tick → LoopExit × Nat
  | [] => (.streamEnded, 0)
  | t :: rest =>
    match loop_exit_of t with
    | some e => (e, 0)
    | none =>
      let r := run_loop rest
      (r.1, r.2 + 1)

theorem loop_exit_of_ne_streamEnded (t : Tick) (e : LoopExit)
    (h : loop_exit_of t = some e) : e ≠ LoopExit.streamEnded := by
  unfold loop_exit_of at h
  by_cases h1 : t.is_err <;> by_cases h2 : t.can_proceed <;>
    by_cases h3 : t.empty_at_final <;> simp [h1, h2, h3] at h <;> simp [← h]

/-- C6: the downloader constructs its fetch request stage to request exactly
SLICE_SIZE + 1 = 193 headers per slice, one more than the 192 headers a
slice holds. -/
theorem fetch_request_headers_count :
    fetch_request_max_headers = HEADER_SLICE_SIZE + 1 ∧
    fetch_request_max_headers = 193 ∧ HEADER_SLICE_SIZE = 192 :=
  ⟨rfl, rfl, rfl⟩

/-- C1: for a nonempty preverified hashes config, the downloader computes its
final block id with number (len(hashes) - 1) * 192 and hash the last config
entry; for a config with 3 slice anchors the final saved block_number
progress is 383. -/
theorem final_block_id_spec (hashes : List Hash) (last : Hash)
    (h : hashes.getLast? = some last) :
    final_block_id hashes =
      .ok { number := (hashes.length - 1) * 192, hash := last } ∧
    (hashes.length = 3 → final_progress ((hashes.length - 1) * 192) = 383) := by
  constructor
  · simp [final_block_id, h, HEADER_SLICE_SIZE]
  · intro h3
    rw [h3]
    decide

/-- Witness for C1 at the concrete config [10, 20, 30]. -/
theorem final_block_id_spec_witness :
    ([10, 20, 30] : List Hash).getLast? = some 30 ∧
    final_block_id [10, 20, 30] = .ok { number := 384, hash := 30 } ∧
    final_progress 384 = 383 :=
  ⟨rfl, (final_block_id_spec [10, 20, 30] 30 rfl).1,
    (final_block_id_spec [10, 20, 30] 30 rfl).2 rfl⟩

/-- C2: the run loop ends exactly at the first tick that fails (with the
failing stage key), fails the can_proceed() check, or satisfies
is_empty_at_final_position(), in that order of evaluation; it notifies the
status watchers after each earlier tick; and it runs to the end of the
trace precisely when no tick meets any of the three break conditions. -/
theorem run_loop_characterization (ticks : List Tick) :
    run_loop ticks =
      ((((ticks.dropWhile (fun t => (loop_exit_of t).isNone)).head?.bind loop_exit_of).getD
          LoopExit.streamEnded),
        (ticks.takeWhile (fun t => (loop_exit_of t).isNone)).length) ∧
    ((run_loop ticks).1 = LoopExit.streamEnded ↔ ∀ t ∈ ticks, loop_exit_of t = none) := by
  constructor
  · induction ticks with
    | nil => rfl
    | cons t rest ih =>
      cases h : loop_exit_of t with
      | some e =>
        simp [run_loop, h, List.dropWhile_cons, List.takeWhile_cons]
      | none =>
        simp [run_loop, h, List.dropWhile_cons, List.takeWhile_cons, ih]
  · induction ticks with
    | nil => simp [run_loop]
    | cons t rest ih =>
      cases h : loop_exit_of t with
      | some e =>
        have hne := loop_exit_of_ne_streamEnded t e h
        simp [run_loop, h, hne]
      | none =>
        simp [run_loop, h, ih]

end HeaderDownload

namespace Mdbx

/-- mdbx::Error, reduced to the distinction the code makes: NotFound versus
every other engine error (abstracted by a code). -/
inductive MdbxError where
  | NotFound
  | Other (code : Int)
deriving DecidableEq

/-- fn filter_not_found from src/kv/mdbx.rs: Ok(v) becomes Ok(Some(v)),
Err(NotFound) becomes Ok(None), any other error is propagated. -/
def filter_not_found {α : Type} : Except MdbxError α → Except MdbxError (Option α)
  | .ok v => .ok (some v)
  | .error .NotFound => .ok none
  | .error e => .error e

/-- Cursor::first for MdbxCursor: filter_not_found(MdbxCursor::first(self)).
The argument is the raw engine result of the underlying call. -/
def cursor_first (res : Except MdbxError (Bytes × Bytes)) :
    Except MdbxError (Option (Bytes × Bytes)) :=
  filter_not_found res

/-- fn set from src/kv/mdbx.rs: filter_not_found(MdbxCursor::set_key(c, k)). -/
def set (res : Except MdbxError (Bytes × Bytes)) :
    Except MdbxError (Option (Bytes × Bytes)) :=
  filter_not_found res

/-- Cursor::seek_exact for MdbxCursor: set(self, key). -/
def cursor_seek_exact (res : Except MdbxError (Bytes × Bytes)) :
    Except MdbxError (Option (Bytes × Bytes)) :=
  set res

/-- fn get_both_range from src/kv/mdbx.rs:
filter_not_found(MdbxCursor::get_both_range(c, k, v)). -/
def get_both_range (res : Except MdbxError Bytes) : Except MdbxError (Option Bytes) :=
  filter_not_found res

/-- CursorDupSort::seek_both_range for MdbxCursor: get_both_range(self, key, value). -/
def cursor_seek_both_range (res : Except MdbxError Bytes) : Except MdbxError (Option Bytes) :=
  get_both_range res

/-- CursorDupSort::next_dup for MdbxCursor: filter_not_found(MdbxCursor::next_dup(self)). -/
def cursor_next_dup (res : Except MdbxError (Bytes × Bytes)) :
    Except MdbxError (Option (Bytes × Bytes)) :=
  filter_not_found res

/-- CursorDupSort::next_no_dup for MdbxCursor: filter_not_found(MdbxCursor::next_nodup(self)). -/
def cursor_next_no_dup (res : Except MdbxError (Bytes × Bytes)) :
    Except MdbxError (Option (Bytes × Bytes)) :=
  filter_not_found res

/-- C8: every implemented read operation of the MDBX cursor layer is total over
absent keys: an engine NotFound becomes Ok(None), an engine success v becomes
Ok(Some(v)), and any other engine error is propagated as Err. -/
theorem cursor_reads_total (kv : Bytes × Bytes) (v : Bytes) (code : Int) :
    cursor_first (.ok kv) = .ok (some kv) ∧
    cursor_first (.error .NotFound) = .ok none ∧
    cursor_first (.error (.Other code)) = .error (.Other code) ∧
    cursor_seek_exact (.ok kv) = .ok (some kv) ∧
    cursor_seek_exact (.error .NotFound) = .ok none ∧
    cursor_seek_exact (.error (.Other code)) = .error (.Other code) ∧
    cursor_seek_both_range (.ok v) = .ok (some v) ∧
    cursor_seek_both_range (.error .NotFound) = .ok none ∧
    cursor_seek_both_range (.error (.Other code)) = .error (.Other code) ∧
    cursor_next_dup (.ok kv) = .ok (some kv) ∧
    cursor_next_dup (.error .NotFound) = .ok none ∧
    cursor_next_dup (.error (.Other code)) = .error (.Other code) ∧
    cursor_next_no_dup (.ok kv) = .ok (some kv) ∧
    cursor_next_no_dup (.error .NotFound) = .ok none ∧
    cursor_next_no_dup (.error (.Other code)) = .error (.Other code) :=
  ⟨rfl, rfl, rfl, rfl, rfl, rfl, rfl, rfl, rfl, rfl, rfl, rfl, rfl, rfl, rfl⟩

/-- A table snapshot: association list from key bytes to value bytes. -/
abbrev TableData := List (Bytes × Bytes)

/-- Engine behaviour of seek_exact (via set_key) on a table snapshot:
the stored entry at exactly that key, if present. -/
def table_seek_exact (table : TableData) (k : Bytes) : Option (Bytes × Bytes) :=
  table.find? (fun kv => kv.1 == k)

/-- usize::from_be_bytes(*array_ref!(v, 0, 8)): panics when the stored value is
shorter than 8 bytes, otherwise decodes the first 8 bytes big-endian. -/
def usize_from_be_bytes (v : Bytes) : RustOutcome Nat :=
  if v.length < 8 then .panicked "index out of bounds"
  else .ok ((v.take 8).foldl (fun acc b => acc * 256 + b % 256) 0)

/-- usize::to_be_bytes of the 64-bit value. -/
def usize_to_be_bytes (n : Nat) : Bytes :=
  (List.range 8).map (fun i => n / 256 ^ (7 - i) % 256)

/-- MutableCursor::put for MdbxCursor in src/kv/mdbx.rs is todo!():
it panics unconditionally instead of writing. -/
def put (_table : TableData) (_k _v : Bytes) : RustOutcome TableData :=
  .panicked "not yet implemented"

/-- MutableTransaction::sequence for a table whose name serialises to db_name:
read the counter row at key db_name (0 when absent), return it unchanged when
amount = 0, otherwise put current + amount back under db_name — which reaches
the unimplemented put. -/
def sequence (table : TableData) (db_name : Bytes) (amount : Nat) :
    RustOutcome (Nat × TableData) :=
  (match table_seek_exact table db_name with
    | none => RustOutcome.ok 0
    | some kv => usize_from_be_bytes kv.2).bind (fun current_v =>
  if amount = 0 then .ok (current_v, table)
  else (put table db_name (usize_to_be_bytes (current_v + amount))).bind (fun t2 =>
    .ok (current_v, t2)))

/-- C9 (code bug): sequence with amount = 0 does return the stored counter and
leaves the table unchanged, but any amount > 0 reaches MutableCursor::put,
which is todo!() and panics instead of storing previous + amount. -/
theorem sequence_put_unimplemented :
    sequence [] [66] 1 = RustOutcome.panicked "not yet implemented" ∧
    sequence [([66], [0, 0, 0, 0, 0, 0, 0, 5])] [66] 1 =
      RustOutcome.panicked "not yet implemented" ∧
    sequence [([66], [0, 0, 0, 0, 0, 0, 0, 5])] [66] 0 =
      RustOutcome.ok (5, [([66], [0, 0, 0, 0, 0, 0, 0, 5])]) ∧
    sequence [] [66] 0 = RustOutcome.ok (0, []) := by
  refine ⟨rfl, ?_, ?_, rfl⟩ <;> decide

end Mdbx

namespace Dbutils

/-- BucketConfigItem from src/dbutils/bucket.rs, with the flag bits as a Nat. -/
structure BucketConfigItem where
  flags : Nat
  auto_dup_sort_keys_conversion : Bool
  is_deprecated : Bool
  dbi : Nat
  dup_from_len : Nat
  dup_to_len : Nat
  dup_fixed_size : Nat
  custom_comparator : String
  custom_dup_comparator : String
deriving DecidableEq

/-- Default::default() for BucketConfigItem. -/
def BucketConfigItem.default : BucketConfigItem :=
  { flags := 0, auto_dup_sort_keys_conversion := false, is_deprecated := false,
    dbi := 0, dup_from_len := 0, dup_to_len := 0, dup_fixed_size := 0,
    custom_comparator := "", custom_dup_comparator := "" }

/-- BucketFlag::DupSort = 0x04. -/
def BucketFlag.DupSort : Nat := 0x04

/-- fn buckets_configs from src/dbutils/bucket.rs, as an association list in
source order. -/
def buckets_configs : List (String × BucketConfigItem) :=
  [("CurrentStateBucket",
     { BucketConfigItem.default with
        flags := BucketFlag.DupSort, auto_dup_sort_keys_conversion := true,
        dup_from_len := 72, dup_to_len := 40 }),
   ("PlainAccountChangeSetBucket",
     { BucketConfigItem.default with flags := BucketFlag.DupSort }),
   ("PlainStorageChangeSetBucket",
     { BucketConfigItem.default with flags := BucketFlag.DupSort }),
   ("AccountChangeSetBucket",
     { BucketConfigItem.default with flags := BucketFlag.DupSort }),
   ("StorageChangeSetBucket",
     { BucketConfigItem.default with flags := BucketFlag.DupSort }),
   ("PlainStateBucket",
     { BucketConfigItem.default with
        flags := BucketFlag.DupSort, auto_dup_sort_keys_conversion := true,
        dup_from_len := 60, dup_to_len := 28 }),
   ("IntermediateTrieHashBucket",
     { BucketConfigItem.default with
        flags := BucketFlag.DupSort, custom_dup_comparator := "dup_cmp_suffix32" })]

/-- C7: the bucket configuration marks both plain change-set buckets as DupSort,
and marks PlainStateBucket as DupSort with automatic key conversion from
60-byte keys (address 20, incarnation 8, slot 32) to 28-byte keys
(address 20, incarnation 8). -/
theorem buckets_configs_dupsort :
    (buckets_configs.lookup "PlainAccountChangeSetBucket").map BucketConfigItem.flags =
      some BucketFlag.DupSort ∧
    (buckets_configs.lookup "PlainStorageChangeSetBucket").map BucketConfigItem.flags =
      some BucketFlag.DupSort ∧
    (buckets_configs.lookup "PlainStateBucket").map BucketConfigItem.flags =
      some BucketFlag.DupSort ∧
    (buckets_configs.lookup "PlainStateBucket").map
        BucketConfigItem.auto_dup_sort_keys_conversion = some true ∧
    (buckets_configs.lookup "PlainStateBucket").map BucketConfigItem.dup_from_len =
      some 60 ∧
    (buckets_configs.lookup "PlainStateBucket").map BucketConfigItem.dup_to_len =
      some 28 ∧
    (60 : Nat) = 20 + 8 + 32 ∧ (28 : Nat) = 20 + 8 := by
  refine ⟨rfl, rfl, rfl, rfl, rfl, rfl, rfl, rfl⟩

end Dbutils

namespace Rpc

/-- anyhow errors raised by collaborators, abstracted by a code. -/
abbrev AnyErr := Int

/-- jsonrpsee errors as the RPC methods produce them: the typed
Error::Request(msg), or a collaborator error propagated through the
question-mark operator. -/
inductive RpcError where
  | Request (msg : String)
  | Anyhow (e : AnyErr)
deriving DecidableEq

/-- Account as read by accessors::state::account. -/
structure Account where
  nonce : Nat
  balance : Nat
  code_hash : Hash
  incarnation : Nat
deriving DecidableEq

/-- The block header image, abstracted to the field the receipt path reads;
PartialHeader::from is the identity in this model. -/
structure Header where
  gas_used : Nat
deriving DecidableEq

/-- Default::default() for Header. -/
def Header.default : Header := { gas_used := 0 }

/-- jsonrpc::common::CallData, restricted to the fields the methods read.
The field named from in the source is fromAddr here. -/
structure CallData where
  fromAddr : Option Address
  toAddr : Address
  gas : Option Nat
  value : Option Nat
  data : Option Bytes
deriving DecidableEq

/-- Message::Legacy as constructed in the call and estimate_gas paths;
action is always TransactionAction::Call(to) there. -/
structure MessageLegacy where
  chain_id : Option Nat
  nonce : Nat
  gas_price : Nat
  gas_limit : Nat
  toAddr : Address
  value : Nat
  input : Bytes
deriving DecidableEq

/-- MessageWithSender. -/
structure MessageWithSender where
  message : MessageLegacy
  sender : Address
deriving DecidableEq

/-- The EVM execute output, abstracted to output_data. -/
structure ExecOutput where
  output_data : Bytes
deriving DecidableEq

/-- An execution receipt, abstracted to the fields the RPC methods read. -/
structure Receipt where
  cumulative_gas_used : Nat
  success : Bool
deriving DecidableEq

/-- A stored block transaction (with recovered sender), abstracted to the
fields the RPC methods read; to = none models TransactionAction::Create. -/
structure StoredTx where
  hash : Hash
  sender : Address
  nonce : Nat
  toAddr : Option Address
deriving DecidableEq

/-- A stored block body. -/
structure BlockBody where
  transactions : List StoredTx
  ommers : List Hash
deriving DecidableEq

/-- Default::default() for BlockBody. -/
def BlockBody.default : BlockBody := { transactions := [], ommers := [] }

/-- The collaborator surface the RPC adapter composes: database-backed reads
(each may fail with a storage error), EVM execution, and address creation.
All are out-of-scope collaborators per the spec and enter as oracles. -/
structure RpcEnv where
  canonical_hash : Nat → Except AnyErr (Option Hash)
  header : Hash → Nat → Except AnyErr (Option Header)
  header_number : Hash → Except AnyErr (Option Nat)
  account : Address → Option Nat → Except AnyErr (Option Account)
  tl : Hash → Except AnyErr (Option Nat)
  block_body : Hash → Nat → Except AnyErr (Option BlockBody)
  execute : MessageWithSender → Nat → Header → Except AnyErr ExecOutput
  execute_block : List MessageWithSender → Header → Except AnyErr (List Receipt)
  execute_block_stored : List StoredTx → Header → Except AnyErr (List Receipt)
  create_address : Address → Nat → Address

/-- eth_call from src/bin/martinez-rpc.rs.  Returns the RPC result together
with the message passed to execute (none when execution was never reached).
Buffer, AnalysisCache and the block spec carry no observable state here and
are absorbed into the execute oracle. -/
def call (env : RpcEnv) (call_data : CallData) (block_number : Nat) :
    Except RpcError Bytes × Option MessageWithSender :=
  match env.canonical_hash block_number with
  | .error e => (.error (.Anyhow e), none)
  | .ok bh =>
    let block_hash := bh.getD 0
    match env.header block_hash block_number with
    | .error e => (.error (.Anyhow e), none)
    | .ok hd =>
      let header := hd.getD Header.default
      let value := call_data.value.getD 0
      let input := call_data.data.getD []
      let sender := call_data.fromAddr.getD 0
      let msg_with_sender : MessageWithSender :=
        { message :=
            { chain_id := some 1, nonce := 0, gas_price := 0, gas_limit := 0,
              toAddr := call_data.toAddr, value := value, input := input },
          sender := sender }
      let gas := call_data.gas.getD 0 % 2 ^ 64
      match env.execute msg_with_sender gas header with
      | .error e => (.error (.Anyhow e), some msg_with_sender)
      | .ok out => (.ok out.output_data, some msg_with_sender)

/-- eth_estimateGas from src/bin/martinez-rpc.rs.  Returns the RPC result
together with the message executed as the single transaction of the
synthetic block (none when execution was never reached). -/
def estimate_gas (env : RpcEnv) (call_data : CallData) (block_number : Nat) :
    Except RpcError Nat × Option MessageWithSender :=
  match env.canonical_hash block_number with
  | .error e => (.error (.Anyhow e), none)
  | .ok bh =>
    let block_hash := bh.getD 0
    match env.account (call_data.fromAddr.getD 0) (some block_number) with
    | .error e => (.error (.Anyhow e), none)
    | .ok acc =>
      let nonce := (acc.map Account.nonce).getD 0
      let value := call_data.value.getD 0
      let input := call_data.data.getD []
      let sender := call_data.fromAddr.getD 0
      match call_data.gas with
      | none => (.error (.Request "gas must be manually set"), none)
      | some g =>
        let gas_limit := g % 2 ^ 64
        let msg : MessageWithSender :=
          { message :=
              { chain_id := some 1, nonce := nonce, gas_price := 0,
                gas_limit := gas_limit, toAddr := call_data.toAddr, value := value,
                input := input },
            sender := sender }
        match env.header block_hash block_number with
        | .error e => (.error (.Anyhow e), none)
        | .ok hd =>
          let header := hd.getD Header.default
          match env.execute_block [msg] header with
          | .error e => (.error (.Anyhow e), some msg)
          | .ok receipts =>
            (.ok ((receipts.getLast?.map Receipt.cumulative_gas_used).getD 0), some msg)

/-- eth_getBalance from src/bin/martinez-rpc.rs. -/
def get_balance (env : RpcEnv) (address : Address) (block_number : Nat) :
    Except RpcError Nat :=
  match env.account address (some block_number) with
  | .error e => .error (.Anyhow e)
  | .ok acc => .ok ((acc.map Account.balance).getD 0)

/-- eth_getTransactionCount from src/bin/martinez-rpc.rs. -/
def get_transaction_count (env : RpcEnv) (address : Address) (block_number : Nat) :
    Except RpcError Nat :=
  match env.account address (some block_number) with
  | .error e => .error (.Anyhow e)
  | .ok acc => .ok ((acc.map Account.nonce).getD 0)

/-- Outcome of an RPC method whose body can panic. -/
inductive RpcOutcome (α : Type) where
  | ok (a : α)
  | err (e : RpcError)
  | panicked (msg : String)
deriving DecidableEq

/-- json_obj::assemble_tx, abstracted to the identifying fields. -/
structure Tx where
  block_hash : Hash
  block_number : Nat
  hash : Hash
  transaction_index : Nat
deriving DecidableEq

/-- json_obj::assemble_tx from src/bin/martinez-rpc.rs, abstracted. -/
def assemble_tx (block_hash : Hash) (block_number : Nat) (msg : StoredTx)
    (index : Nat) : Tx :=
  { block_hash := block_hash, block_number := block_number, hash := msg.hash,
    transaction_index := index }

/-- eth_getTransactionByBlockHashAndIndex from src/bin/martinez-rpc.rs:
the body indexes transactions[i] without a bounds check. -/
def get_tx_by_block_hash_and_index (env : RpcEnv) (block_hash : Hash)
    (index : Nat) : RpcOutcome Tx :=
  match env.header_number block_hash with
  | .error e => .err (.Anyhow e)
  | .ok n =>
    let block_number := n.getD 0
    match env.block_body block_hash block_number with
    | .error e => .err (.Anyhow e)
    | .ok b =>
      let msgs := (b.getD BlockBody.default).transactions
      match msgs.get? index with
      | none => .panicked "index out of bounds"
      | some m => .ok (assemble_tx block_hash block_number m index)

/-- eth_getTransactionByBlockNumberAndIndex from src/bin/martinez-rpc.rs:
the body indexes transactions[i] without a bounds check. -/
def get_tx_by_block_number_and_index (env : RpcEnv) (block_number : Nat)
    (index : Nat) : RpcOutcome Tx :=
  match env.canonical_hash block_number with
  | .error e => .err (.Anyhow e)
  | .ok bh =>
    let block_hash := bh.getD 0
    match env.block_body block_hash block_number with
    | .error e => .err (.Anyhow e)
    | .ok b =>
      let msgs := (b.getD BlockBody.default).transactions
      match msgs.get? index with
      | none => .panicked "index out of bounds"
      | some m => .ok (assemble_tx block_hash block_number m index)

/-- The receipt object assembled by eth_getTransactionReceipt, abstracted. -/
structure TxReceipt where
  transaction_hash : Hash
  transaction_index : Nat
  block_hash : Hash
  block_number : Nat
  from_addr : Address
  toAddr : Option Address
  cumulative_gas_used : Nat
  gas_used : Nat
  contract_address : Option Address
  status : Nat
deriving DecidableEq

/-- eth_getTransactionReceipt from src/bin/martinez-rpc.rs: filters the block
transactions by hash, then indexes element 0 of the filtered list and the
receipt list at that index, both without bounds checks. -/
def get_transaction_receipt (env : RpcEnv) (tx_hash : Hash) : RpcOutcome TxReceipt :=
  match env.tl tx_hash with
  | .error e => .err (.Anyhow e)
  | .ok bn =>
    let block_number := bn.getD 0
    match env.canonical_hash block_number with
    | .error e => .err (.Anyhow e)
    | .ok bh =>
      let block_hash := bh.getD 0
      match env.block_body block_hash block_number with
      | .error e => .err (.Anyhow e)
      | .ok body1 =>
        let msgs_with_sender := (body1.getD BlockBody.default).transactions
        let msgs := (msgs_with_sender.filter (fun m => m.hash == tx_hash)).enum
        match msgs.get? 0 with
        | none => .panicked "index out of bounds"
        | some im =>
          match env.header block_hash block_number with
          | .error e => .err (.Anyhow e)
          | .ok hd =>
            let header := hd.getD Header.default
            match env.block_body block_hash block_number with
            | .error e => .err (.Anyhow e)
            | .ok body2 =>
              let block := (body2.getD BlockBody.default).transactions
              match env.execute_block_stored block header with
              | .error e => .err (.Anyhow e)
              | .ok receipts =>
                match receipts.get? im.1 with
                | none => .panicked "index out of bounds"
                | some receipt =>
                  let toOpt := im.2.toAddr
                  let contract_address :=
                    match toOpt with
                    | some _ => none
                    | none => some (env.create_address im.2.sender im.2.nonce)
                  .ok { transaction_hash := tx_hash, transaction_index := im.1,
                        block_hash := block_hash, block_number := block_number,
                        from_addr := im.2.sender, toAddr := toOpt,
                        cumulative_gas_used := receipt.cumulative_gas_used,
                        gas_used := header.gas_used,
                        contract_address := contract_address,
                        status := if receipt.success then 1 else 0 }

/-- C3: estimate_gas with no gas budget fails the typed Request check before
any block execution; with a gas budget that error can never be produced. -/
theorem estimate_gas_requires_gas (env : RpcEnv) (cd : CallData) (bn : Nat) :
    (cd.gas = none →
      ∀ ch ac, env.canonical_hash bn = Except.ok ch →
        env.account (cd.fromAddr.getD 0) (some bn) = Except.ok ac →
        estimate_gas env cd bn =
          (Except.error (RpcError.Request "gas must be manually set"), none)) ∧
    (∀ g, cd.gas = some g →
      (estimate_gas env cd bn).1 ≠
        Except.error (RpcError.Request "gas must be manually set")) := by
  constructor
  · intro hg ch ac hch hac
    simp [estimate_gas, hch, hac, hg]
  · intro g hg
    simp only [estimate_gas, hg]
    split
    · simp
    · split
      · simp
      · split
        · simp
        · split <;> simp

/-- A collaborator environment where all reads succeed with empty results and
the canonical hash resolves. -/
def env_c3 : RpcEnv :=
  { canonical_hash := fun _ => .ok (some 7), header := fun _ _ => .ok none,
    header_number := fun _ => .ok none, account := fun _ _ => .ok none,
    tl := fun _ => .ok none, block_body := fun _ _ => .ok none,
    execute := fun _ _ _ => .ok { output_data := [] },
    execute_block := fun _ _ => .ok [{ cumulative_gas_used := 21000, success := true }],
    execute_block_stored := fun _ _ => .ok [],
    create_address := fun s _ => s }

/-- A call request without a gas budget. -/
def cd_nogas : CallData :=
  { fromAddr := none, toAddr := 3, gas := none, value := none, data := none }

/-- The same call request with a gas budget. -/
def cd_gas : CallData :=
  { fromAddr := none, toAddr := 3, gas := some 21000, value := none, data := none }

/-- Witness for C3 at a concrete environment and call request. -/
theorem estimate_gas_requires_gas_witness :
    cd_nogas.gas = none ∧
    env_c3.canonical_hash 0 = Except.ok (some 7) ∧
    env_c3.account 0 (some 0) = Except.ok none ∧
    estimate_gas env_c3 cd_nogas 0 =
      (Except.error (RpcError.Request "gas must be manually set"), none) ∧
    cd_gas.gas = some 21000 ∧
    (estimate_gas env_c3 cd_gas 0).1 ≠
      Except.error (RpcError.Request "gas must be manually set") :=
  ⟨rfl, rfl, rfl,
    (estimate_gas_requires_gas env_c3 cd_nogas 0).1 rfl (some 7) none rfl rfl,
    rfl,
    (estimate_gas_requires_gas env_c3 cd_gas 0).2 21000 rfl⟩

/-- C4: whenever call or estimate_gas executes a message, that message was
constructed with chain_id = Some(ChainId(1)), for every input and
independent of the chain spec. -/
theorem chain_id_hardcoded (env : RpcEnv) (cd : CallData) (bn : Nat)
    (m : MessageWithSender) :
    ((call env cd bn).2 = some m → m.message.chain_id = some 1) ∧
    ((estimate_gas env cd bn).2 = some m → m.message.chain_id = some 1) := by
  constructor <;> intro h
  · unfold call at h
    dsimp only at h
    repeat' split at h
    all_goals simp at h
    all_goals rw [← h]
  · unfold estimate_gas at h
    dsimp only at h
    repeat' split at h
    all_goals simp at h
    all_goals rw [← h]

/-- A collaborator environment where every read and execution succeeds. -/
def env_c4 : RpcEnv :=
  { canonical_hash := fun _ => .ok (some 7), header := fun _ _ => .ok none,
    header_number := fun _ => .ok none, account := fun _ _ => .ok none,
    tl := fun _ => .ok none, block_body := fun _ _ => .ok none,
    execute := fun _ _ _ => .ok { output_data := [] },
    execute_block := fun _ _ => .ok [{ cumulative_gas_used := 21000, success := true }],
    execute_block_stored := fun _ _ => .ok [],
    create_address := fun s _ => s }

/-- The message call constructs for cd_gas in env_c4. -/
def msg_call_w : MessageWithSender :=
  { message := { chain_id := some 1, nonce := 0, gas_price := 0, gas_limit := 0,
                 toAddr := 3, value := 0, input := [] },
    sender := 0 }

/-- The message estimate_gas constructs for cd_gas in env_c4. -/
def msg_estimate_w : MessageWithSender :=
  { message := { chain_id := some 1, nonce := 0, gas_price := 0, gas_limit := 21000,
                 toAddr := 3, value := 0, input := [] },
    sender := 0 }

/-- Witness for C4 at a concrete environment and call request. -/
theorem chain_id_hardcoded_witness :
    (call env_c4 cd_gas 0).2 = some msg_call_w ∧
    msg_call_w.message.chain_id = some 1 ∧
    (estimate_gas env_c4 cd_gas 0).2 = some msg_estimate_w ∧
    msg_estimate_w.message.chain_id = some 1 :=
  ⟨rfl, (chain_id_hardcoded env_c4 cd_gas 0 msg_call_w).1 rfl,
    rfl, (chain_id_hardcoded env_c4 cd_gas 0 msg_estimate_w).2 rfl⟩

/-- C5: when the historical account read finds no account, get_balance answers
U256::ZERO and get_transaction_count answers 0, with no error. -/
theorem missing_account_defaults (env : RpcEnv) (address : Address) (bn : Nat)
    (h : env.account address (some bn) = Except.ok none) :
    get_balance env address bn = Except.ok 0 ∧
    get_transaction_count env address bn = Except.ok 0 := by
  constructor <;> simp [get_balance, get_transaction_count, h]

/-- A collaborator environment where the account read finds nothing. -/
def env_c5 : RpcEnv :=
  { canonical_hash := fun _ => .ok none, header := fun _ _ => .ok none,
    header_number := fun _ => .ok none, account := fun _ _ => .ok none,
    tl := fun _ => .ok none, block_body := fun _ _ => .ok none,
    execute := fun _ _ _ => .ok { output_data := [] },
    execute_block := fun _ _ => .ok [],
    execute_block_stored := fun _ _ => .ok [],
    create_address := fun s _ => s }

/-- Witness for C5 at a concrete environment, address and block. -/
theorem missing_account_defaults_witness :
    env_c5.account 1 (some 2) = Except.ok none ∧
    (get_balance env_c5 1 2 = Except.ok 0 ∧
     get_transaction_count env_c5 1 2 = Except.ok 0) :=
  ⟨rfl, missing_account_defaults env_c5 1 2 rfl⟩

/-- C10: the transaction-indexed methods perform unchecked indexing: an index
beyond the block's transaction count, or a receipt lookup whose hash matches
no transaction of the resolved block, panics instead of producing a typed
error. -/
theorem unchecked_tx_indexing (env : RpcEnv) (txh bh : Hash) (bn i : Nat)
    (body : BlockBody) :
    (env.header_number bh = Except.ok (some bn) →
     env.block_body bh bn = Except.ok (some body) →
     body.transactions.length ≤ i →
     get_tx_by_block_hash_and_index env bh i =
       RpcOutcome.panicked "index out of bounds") ∧
    (env.canonical_hash bn = Except.ok (some bh) →
     env.block_body bh bn = Except.ok (some body) →
     body.transactions.length ≤ i →
     get_tx_by_block_number_and_index env bn i =
       RpcOutcome.panicked "index out of bounds") ∧
    (env.tl txh = Except.ok (some bn) →
     env.canonical_hash bn = Except.ok (some bh) →
     env.block_body bh bn = Except.ok (some body) →
     (∀ m ∈ body.transactions, m.hash ≠ txh) →
     get_transaction_receipt env txh =
       RpcOutcome.panicked "index out of bounds") := by
  refine ⟨?_, ?_, ?_⟩
  · intro h1 h2 hi
    simp [get_tx_by_block_hash_and_index, h1, h2, List.getElem?_eq_none hi]
  · intro h1 h2 hi
    simp [get_tx_by_block_number_and_index, h1, h2, List.getElem?_eq_none hi]
  · intro h1 h2 h3 hf
    have hfil : body.transactions.filter (fun m => m.hash == txh) = [] := by
      rw [List.filter_eq_nil_iff]
      intro a ha
      simp [hf a ha]
    simp [get_transaction_receipt, h1, h2, h3, hfil]

/-- A collaborator environment resolving a one-transaction block. -/
def env_c10 : RpcEnv :=
  { canonical_hash := fun _ => .ok (some 7), header := fun _ _ => .ok none,
    header_number := fun _ => .ok (some 5), account := fun _ _ => .ok none,
    tl := fun _ => .ok (some 5),
    block_body := fun _ _ =>
      .ok (some { transactions := [{ hash := 99, sender := 1, nonce := 0, toAddr := none }],
                  ommers := [] }),
    execute := fun _ _ _ => .ok { output_data := [] },
    execute_block := fun _ _ => .ok [],
    execute_block_stored := fun _ _ => .ok [{ cumulative_gas_used := 21000, success := true }],
    create_address := fun s _ => s }

/-- The block body env_c10 stores. -/
def body_c10 : BlockBody :=
  { transactions := [{ hash := 99, sender := 1, nonce := 0, toAddr := none }],
    ommers := [] }

/-- Witness for C10 at a concrete environment: transaction index 1 in a
one-transaction block, and a receipt lookup for an unknown hash. -/
theorem unchecked_tx_indexing_witness :
    env_c10.header_number 7 = Except.ok (some 5) ∧
    env_c10.block_body 7 5 = Except.ok (some body_c10) ∧
    body_c10.transactions.length ≤ 1 ∧
    get_tx_by_block_hash_and_index env_c10 7 1 =
      RpcOutcome.panicked "index out of bounds" ∧
    get_tx_by_block_number_and_index env_c10 5 1 =
      RpcOutcome.panicked "index out of bounds" ∧
    get_transaction_receipt env_c10 123 =
      RpcOutcome.panicked "index out of bounds" :=
  ⟨rfl, rfl, by decide,
    (unchecked_tx_indexing env_c10 123 7 5 1 body_c10).1 rfl rfl (by decide),
    (unchecked_tx_indexing env_c10 123 7 5 1 body_c10).2.1 rfl rfl (by decide),
    (unchecked_tx_indexing env_c10 123 7 5 1 body_c10).2.2 rfl rfl rfl (by decide)⟩

end Rpc

end Martinez
